import Mathlib

/-!
Verification development for the document-statistics engine of the
ghostwriter editor (src/src/documentstatistics.cpp).

Modelling conventions:
* QString text is modelled as List Char; QChar::isLetterOrNumber and
  QChar::isSpace are modelled on ASCII by Char.isAlphanum and
  Char.isWhitespace (the claims under test only involve ASCII text).
* C++ int counters are modelled as Int (no claim approaches overflow).
* qreal/float arithmetic inside the readability formulas is modelled by
  exact rational arithmetic (ℚ) with Int.ceil for qCeil.
* The Qt document is modelled as a list of text blocks, each carrying its
  text and an optional TextBlockData cache slot (block.userData()).
  QTextDocument::characterCount() is the sum over blocks of
  text length + 1 (each block contributes its block separator, the last
  one the trailing document terminator).
* The QTextBoundaryFinder sentence oracle is an explicit parameter: a
  function from the trimmed text to the list of successive boundary
  positions returned by toNextBoundary before it reports -1.
* Signal emissions are modelled by a MetricsBatch record assembled by the
  emitting function; the totalWordCountChanged signal is emitted only by
  updateStatistics, hence an Option field.
-/

namespace Ghostwriter

/-- QChar::isLetterOrNumber, restricted to ASCII. -/
def isLetterOrNumber (c : Char) : Bool := c.isAlphanum

/-- QChar::isSpace, restricted to ASCII whitespace. -/
def isSpace (c : Char) : Bool := c.isWhitespace

/-- QString::trimmed: strip leading and trailing whitespace. -/
def trimmed (text : List Char) : List Char :=
  ((text.dropWhile isSpace).reverse.dropWhile isSpace).reverse

/-- The loop state of DocumentStatisticsPrivate::countWords: the local
variables of the scan together with the three output accumulators. -/
structure CountWordsState where
  inWord : Bool
  separatorCount : Int
  wordLen : Int
  words : Int
  lixLongWords : Int
  alphaNumericCharacters : Int
  deriving Repr, DecidableEq

/-- Initial state of the countWords scan (lines 305-311 of the source). -/
def countWordsInit : CountWordsState :=
  { inWord := false, separatorCount := 0, wordLen := 0,
    words := 0, lixLongWords := 0, alphaNumericCharacters := 0 }

/-- One iteration of the countWords for-loop (lines 313-361). -/
def countWordsStep (s : CountWordsState) (c : Char) : CountWordsState :=
  if isLetterOrNumber c then
    { s with inWord := true, separatorCount := 0,
             wordLen := s.wordLen + 1,
             alphaNumericCharacters := s.alphaNumericCharacters + 1 }
  else if isSpace c && s.inWord then
    -- close the word; a pending trailing separator is uncounted
    let wordLen2 := if s.separatorCount > 0 then s.wordLen - 1 else s.wordLen
    let alpha2 := if s.separatorCount > 0 then s.alphaNumericCharacters - 1
                  else s.alphaNumericCharacters
    { inWord := false, separatorCount := 0, wordLen := 0,
      words := s.words + 1,
      lixLongWords := if wordLen2 > 6 then s.lixLongWords + 1 else s.lixLongWords,
      alphaNumericCharacters := alpha2 }
  else
    -- separator handling: double dashes split words, a single hyphen
    -- is absorbed into the current word
    let sep2 := s.separatorCount + 1
    if s.inWord then
      if sep2 > 1 then
        { inWord := false, separatorCount := 0, wordLen := 0,
          words := s.words + 1,
          lixLongWords := if s.wordLen - 1 > 6 then s.lixLongWords + 1
                          else s.lixLongWords,
          alphaNumericCharacters := s.alphaNumericCharacters - 1 }
      else
        { s with separatorCount := sep2,
                 wordLen := s.wordLen + 1,
                 alphaNumericCharacters := s.alphaNumericCharacters + 1 }
    else
      { s with separatorCount := sep2 }

/-- The post-loop flush of countWords (lines 363-374): close a still-open
word, applying the same trailing-separator correction and long-word test. -/
def countWordsFinish (s : CountWordsState) : Int × Int × Int :=
  if s.inWord then
    let wordLen2 := if s.separatorCount > 0 then s.wordLen - 1 else s.wordLen
    let alpha2 := if s.separatorCount > 0 then s.alphaNumericCharacters - 1
                  else s.alphaNumericCharacters
    (s.words + 1,
     if wordLen2 > 6 then s.lixLongWords + 1 else s.lixLongWords,
     alpha2)
  else
    (s.words, s.lixLongWords, s.alphaNumericCharacters)

/-- DocumentStatisticsPrivate::countWords: returns
(words, lixLongWords, alphaNumericCharacters). -/
def countWords (text : List Char) : Int × Int × Int :=
  countWordsFinish (text.foldl countWordsStep countWordsInit)

/-- Loop body chain of DocumentStatisticsPrivate::countSentences
(lines 389-401): given the trimmed text, the current position and the
remaining boundary positions the oracle will return, accumulate the
sentence count.  An empty list models toNextBoundary returning -1, in
which case nextSentencePos - oldPos is negative and nothing is counted. -/
def countSentencesLoop (trimmedText : List Char) : Int → List Int → Int
  | _, [] => 0
  | oldPos, nextPos :: rest =>
      (if (nextPos - oldPos > 1)
          || ((nextPos - oldPos > 0)
              && !(isSpace (trimmedText.getD oldPos.toNat ' ')))
       then 1 else 0)
      + countSentencesLoop trimmedText nextPos rest

/-- DocumentStatisticsPrivate::countSentences, parameterized by the
QTextBoundaryFinder sentence-boundary oracle. -/
def countSentences (oracle : List Char → List Int) (text : List Char) : Int :=
  let trimmedText := trimmed text
  if trimmedText.length > 0 then
    countSentencesLoop trimmedText 0 (oracle trimmedText)
  else 0

/-- DocumentStatisticsPrivate::calculatePageCount. -/
def calculatePageCount (words : Int) : Int := words / 250

/-- DocumentStatisticsPrivate::calculateReadingTime. -/
def calculateReadingTime (words : Int) : Int := words / 270

/-- DocumentStatisticsPrivate::calculateComplexWords. -/
def calculateComplexWords (totalWords longWords : Int) : Int :=
  if totalWords > 0 then
    Int.ceil (((longWords : ℚ) / (totalWords : ℚ)) * 100)
  else 0

/-- DocumentStatisticsPrivate::calculateLIX. -/
def calculateLIX (totalWords longWords sentences : Int) : Int :=
  if totalWords > 0 ∧ sentences > 0 then
    Int.ceil (((totalWords : ℚ) / (sentences : ℚ))
              + ((longWords : ℚ) / (totalWords : ℚ)) * 100)
  else 0

/-- DocumentStatisticsPrivate::calculateCLI, with the negative clamp. -/
def calculateCLI (characters words sentences : Int) : Int :=
  if sentences > 0 ∧ words > 0 then
    let cli := Int.ceil ((5.88 : ℚ) * ((characters : ℚ) / (words : ℚ))
                         - (29.6 : ℚ) * ((sentences : ℚ) / (words : ℚ))
                         - (15.8 : ℚ))
    if cli < 0 then 0 else cli
  else 0

/-- The per-paragraph cache entry attached to a text block
(TextBlockData fields written by the statistics engine). -/
structure TextBlockData where
  wordCount : Int
  lixLongWordCount : Int
  alphaNumericCharacterCount : Int
  sentenceCount : Int
  deriving Repr, DecidableEq

/-- A QTextBlock: its text and its userData cache slot
(none models a null TextBlockData pointer). -/
structure Block where
  text : List Char
  userData : Option TextBlockData
  deriving Repr, DecidableEq

/-- The QTextDocument, as the statistics engine sees it: the list of its
text blocks in document order. -/
structure Document where
  blocks : List Block
  deriving Repr, DecidableEq

/-- QTextDocument::characterCount: each block contributes its text length
plus one (the block separator; for the final block, the trailing document
terminator). -/
def docCharacterCount (doc : Document) : Int :=
  (doc.blocks.map (fun b => (b.text.length : Int) + 1)).sum

/-- The mutable fields of DocumentStatisticsPrivate. -/
structure DocStatsState where
  wordCount : Int
  totalWordCount : Int
  wordCharacterCount : Int
  sentenceCount : Int
  paragraphCount : Int
  pageCount : Int
  lixLongWordCount : Int
  readTimeMinutes : Int
  deriving Repr, DecidableEq

/-- The zero state established by the DocumentStatistics constructor. -/
def initialStats : DocStatsState :=
  { wordCount := 0, totalWordCount := 0, wordCharacterCount := 0,
    sentenceCount := 0, paragraphCount := 0, pageCount := 0,
    lixLongWordCount := 0, readTimeMinutes := 0 }

/-- One batch of signal emissions.  Every recompute path emits the nine
metric signals; totalWordCountChanged is emitted only by
updateStatistics, hence the Option. -/
structure MetricsBatch where
  wordCount : Int
  totalWordCount : Option Int
  characterCount : Int
  sentenceCount : Int
  paragraphCount : Int
  pageCount : Int
  complexWords : Int
  readingTime : Int
  lixReadingEase : Int
  readabilityIndex : Int
  deriving Repr, DecidableEq

/-- DocumentStatisticsPrivate::updateStatistics (lines 249-266): refresh
the derived pageCount and readTimeMinutes fields, then emit all metrics. -/
def updateStatistics (doc : Document) (s : DocStatsState) :
    DocStatsState × MetricsBatch :=
  let s2 := { s with pageCount := calculatePageCount s.wordCount,
                     readTimeMinutes := calculateReadingTime s.wordCount }
  (s2,
   { wordCount := s2.wordCount,
     totalWordCount := some s2.wordCount,
     characterCount := docCharacterCount doc - 1,
     sentenceCount := s2.sentenceCount,
     paragraphCount := s2.paragraphCount,
     pageCount := s2.pageCount,
     complexWords := calculateComplexWords s2.wordCount s2.lixLongWordCount,
     readingTime := s2.readTimeMinutes,
     lixReadingEase := calculateLIX s2.wordCount s2.lixLongWordCount s2.sentenceCount,
     readabilityIndex := calculateCLI s2.wordCharacterCount s2.wordCount s2.sentenceCount })

/-- DocumentStatisticsPrivate::updateBlockStatistics (lines 268-295):
get-or-create the block's cache entry, recompute all four of its fields
from the block's text, add them into the running document totals, and
count the paragraph if its trimmed text is non-empty.  (In the source the
cache entry is created zeroed when absent and then every field is
overwritten, so the result does not depend on the previous slot value.) -/
def updateBlockStatistics (oracle : List Char → List Int)
    (s : DocStatsState) (b : Block) : DocStatsState × Block :=
  let w := countWords b.text
  let sc := countSentences oracle b.text
  let blockData : TextBlockData :=
    { wordCount := w.1, lixLongWordCount := w.2.1,
      alphaNumericCharacterCount := w.2.2, sentenceCount := sc }
  let s2 := { s with
    wordCount := s.wordCount + w.1,
    lixLongWordCount := s.lixLongWordCount + w.2.1,
    wordCharacterCount := s.wordCharacterCount + w.2.2,
    sentenceCount := s.sentenceCount + sc,
    paragraphCount := if (trimmed b.text).length > 0 then s.paragraphCount + 1
                      else s.paragraphCount }
  (s2, { b with userData := some blockData })

/-- The block-walk of DocumentStatistics::onTextChanged (lines 235-244):
visit every block from first to last, updating each block's statistics
and accumulating the totals. -/
def runBlocks (oracle : List Char → List Int) :
    DocStatsState → List Block → DocStatsState × List Block
  | s, [] => (s, [])
  | s, b :: rest =>
      let ub := updateBlockStatistics oracle s b
      let r := runBlocks oracle ub.1 rest
      (r.1, ub.2 :: r.2)

/-- DocumentStatistics::onTextChanged (lines 217-247): reset the totals,
rescan every block, then publish via updateStatistics.  Returns the
document with its refreshed cache entries, the new private state, and
the emitted batch. -/
def onTextChanged (oracle : List Char → List Int)
    (doc : Document) (s : DocStatsState) :
    Document × DocStatsState × MetricsBatch :=
  let s0 := { s with wordCount := 0, wordCharacterCount := 0,
                     sentenceCount := 0, paragraphCount := 0,
                     pageCount := 0, lixLongWordCount := 0,
                     readTimeMinutes := 0 }
  let r := runBlocks oracle s0 doc.blocks
  let doc2 : Document := { blocks := r.2 }
  let u := updateStatistics doc2 r.1
  (doc2, u.1, u.2)

/-- QTextDocument::findBlock as a block index: the index of the block
containing the given position, each block covering its text length plus
one positions (positions past the end resolve to the last block). -/
def blockIndex : List Block → Int → Nat
  | [], _ => 0
  | b :: rest, pos =>
      if pos < (b.text.length : Int) + 1 then 0
      else blockIndex rest (pos - ((b.text.length : Int) + 1)) + 1

/-- The range of blocks walked by the selection loop of onTextSelected
(lines 186-197): from findBlock(selectionStart) to
findBlock(selectionEnd) inclusive. -/
def selectedBlocks (blocks : List Block) (selectionStart selectionEnd : Int) :
    List Block :=
  let i := blockIndex blocks selectionStart
  let j := blockIndex blocks selectionEnd
  (blocks.drop i).take (j + 1 - i)

/-- The body of the selection loop (lines 189-197): count the blocks whose
userData pointer is non-null and whose trimmed text is non-empty. -/
def selectedParagraphLoop : List Block → Int
  | [] => 0
  | b :: rest =>
      (if b.userData.isSome ∧ (trimmed b.text).length > 0 then 1 else 0)
      + selectedParagraphLoop rest

/-- DocumentStatistics::onTextSelected (lines 160-208): compute all
selection-scoped metrics into locals and emit them; the private state is
only read, never written. -/
def onTextSelected (oracle : List Char → List Int)
    (doc : Document) (s : DocStatsState)
    (selectedText : List Char) (selectionStart selectionEnd : Int) :
    DocStatsState × MetricsBatch :=
  let w := countWords selectedText
  let sc := countSentences oracle selectedText
  let spc := selectedParagraphLoop (selectedBlocks doc.blocks selectionStart selectionEnd)
  (s,
   { wordCount := w.1,
     totalWordCount := none,
     characterCount := (selectedText.length : Int),
     sentenceCount := sc,
     paragraphCount := spc,
     pageCount := calculatePageCount w.1,
     complexWords := calculateComplexWords w.1 w.2.1,
     readingTime := calculateReadingTime w.1,
     lixReadingEase := calculateLIX w.1 w.2.1 sc,
     readabilityIndex := calculateCLI w.2.2 w.1 sc })

/-- DocumentStatistics::wordCount accessor (lines 118-123). -/
def DocumentStatistics.wordCount (s : DocStatsState) : Int := s.wordCount

/-- DocumentStatistics::characterCount accessor (lines 125-130). -/
def DocumentStatistics.characterCount (doc : Document) : Int :=
  docCharacterCount doc - 1

/-- DocumentStatistics::paragraphCount accessor (lines 132-137). -/
def DocumentStatistics.paragraphCount (s : DocStatsState) : Int := s.paragraphCount

/-- DocumentStatistics::sentenceCount accessor (lines 139-144). -/
def DocumentStatistics.sentenceCount (s : DocStatsState) : Int := s.sentenceCount

/-- DocumentStatistics::pageCount accessor (lines 146-151). -/
def DocumentStatistics.pageCount (s : DocStatsState) : Int := s.pageCount

/-- DocumentStatistics::readingTime accessor (lines 153-158). -/
def DocumentStatistics.readingTime (s : DocStatsState) : Int := s.readTimeMinutes

/-- A sentence-boundary oracle that reports no boundary at all, used for
concrete instances whose sentence counts are irrelevant. -/
def emptyOracle : List Char → List Int := fun _ => []

/-- The block's cached word count, 0 when no cache entry is allocated. -/
def cachedWordCount (b : Block) : Int :=
  match b.userData with
  | some d => d.wordCount
  | none => 0

/-- Concrete document with one paragraph of text and no cache entry, used
for the selection-event counterexamples. -/
def docHello : Document :=
  { blocks := [{ text := String.toList "hello world", userData := none }] }

/-- Concrete single-paragraph document whose cache slot was never
allocated (no whole-document pass has run). -/
def docNoCache : Document :=
  { blocks := [{ text := String.toList "hello", userData := none }] }

/-- C1 counterexample: countWords on the string well-known does not return
9 alphanumeric characters as the claim states: the absorbed hyphen is
followed by further letters, so the separator run is reset and the hyphen
stays counted; the code returns (1, 1, 10). -/
theorem countWords_wellKnown_cex :
    countWords (String.toList "well-known") ≠ (1, 1, 9) := by decide

/-- C1 (amended): countWords on the string well-known returns 1 word,
1 long word (the word length used for the long-word test is 10, which
includes the absorbed hyphen), and 10 alphanumeric characters: a single
separator followed by further letters is counted in both totals; only a
separator left pending at the end of a word is uncounted. -/
theorem countWords_wellKnown :
    countWords (String.toList "well-known") = (1, 1, 10) := by decide

/-- C3: countWords on the string done--next returns exactly 2 words split
at the double dash, 0 long words, and 8 alphanumeric characters: the
tentatively absorbed first dash is removed from the word length and from
the alphanumeric total when the second dash closes the word. -/
theorem countWords_doneNext :
    countWords (String.toList "done--next") = (2, 0, 8) := by decide

/-- C6: calculateLIX equals the ceiling of
totalWords/sentences + 100*longWords/totalWords (exact rational
division) whenever totalWords > 0 and sentences > 0, and equals 0
otherwise; in particular no division by zero occurs. -/
theorem calculateLIX_spec (totalWords longWords sentences : Int) :
    (0 < totalWords ∧ 0 < sentences →
      calculateLIX totalWords longWords sentences =
        Int.ceil ((totalWords : ℚ) / (sentences : ℚ)
                  + 100 * (longWords : ℚ) / (totalWords : ℚ)))
    ∧ (¬ (0 < totalWords ∧ 0 < sentences) →
      calculateLIX totalWords longWords sentences = 0) := by
  constructor
  · intro h
    rw [calculateLIX, if_pos h]
    congr 1
    ring
  · intro h
    rw [calculateLIX, if_neg h]

/-- C6 witness: the LIX formula evaluated at 2 words, 1 long word and
1 sentence, and the zero branch at 0 total words. -/
theorem calculateLIX_spec_witness :
    calculateLIX 2 1 1 =
      Int.ceil ((2 : ℚ) / (1 : ℚ) + 100 * (1 : ℚ) / (2 : ℚ))
    ∧ calculateLIX 0 1 1 = 0 :=
  ⟨(calculateLIX_spec 2 1 1).1 (by decide),
   (calculateLIX_spec 0 1 1).2 (by decide)⟩

/-- C7: calculateCLI returns 0 whenever words = 0 or sentences = 0, and
for non-negative inputs its result is never negative: a negative ceiling
value is clamped to 0. -/
theorem calculateCLI_spec (characters words sentences : Int) :
    (words = 0 ∨ sentences = 0 →
      calculateCLI characters words sentences = 0)
    ∧ (0 ≤ characters → 0 ≤ words → 0 ≤ sentences →
      0 ≤ calculateCLI characters words sentences) := by
  constructor
  · intro h
    rw [calculateCLI, if_neg (by omega)]
  · intro _ _ _
    simp only [calculateCLI]
    split_ifs with h1 h2
    · exact le_refl 0
    · exact not_lt.mp h2
    · exact le_refl 0

/-- C7 witness: the zero branch at 0 sentences and non-negativity at an
input whose raw CLI formula value is negative (10 characters, 2 words,
1 sentence gives a ceiling of -1, clamped to 0). -/
theorem calculateCLI_spec_witness :
    calculateCLI 10 0 1 = 0 ∧ 0 ≤ calculateCLI 10 2 1 :=
  ⟨(calculateCLI_spec 10 0 1).1 (by decide),
   (calculateCLI_spec 10 2 1).2 (by decide) (by decide) (by decide)⟩

/-- C8: countSentences trims the input and returns 0 when the trimmed
text is empty; and each boundary step of the oracle from oldPos to
nextPos counts as a sentence exactly when the segment is longer than one
character, or is exactly one character which is not whitespace. -/
theorem countSentences_spec (oracle : List Char → List Int)
    (text : List Char) (h : trimmed text = []) :
    countSentences oracle text = 0 ∧
    ∀ (trimmedText : List Char) (oldPos nextPos : Int) (rest : List Int),
      countSentencesLoop trimmedText oldPos (nextPos :: rest) =
        (if nextPos - oldPos > 1
            ∨ (nextPos - oldPos = 1
               ∧ isSpace (trimmedText.getD oldPos.toNat ' ') = false)
         then 1 else 0)
        + countSentencesLoop trimmedText nextPos rest := by
  constructor
  · simp [countSentences, h]
  · intro trimmedText oldPos nextPos rest
    rw [countSentencesLoop]
    have hiff :
        ((nextPos - oldPos > 1)
          || ((nextPos - oldPos > 0)
              && !(isSpace (trimmedText.getD oldPos.toNat ' ')))) = true
        ↔ (nextPos - oldPos > 1
            ∨ (nextPos - oldPos = 1
               ∧ isSpace (trimmedText.getD oldPos.toNat ' ') = false)) := by
      cases hsp : isSpace (trimmedText.getD oldPos.toNat ' ')
      · simp [hsp]
        omega
      · simp [hsp]
    rw [if_congr hiff rfl rfl]

/-- C8 witness: a pure-whitespace input trims to empty and yields 0
sentences. -/
theorem countSentences_spec_witness :
    trimmed (String.toList "   ") = []
    ∧ countSentences emptyOracle (String.toList "   ") = 0 :=
  ⟨by decide,
   (countSentences_spec emptyOracle (String.toList "   ") (by decide)).1⟩

/-- The inductive invariant of the countWords scan state: all counters
are non-negative, the long-word count never exceeds the word count, the
running word length never exceeds the alphanumeric total, an open word
has length at least 1, and an open word with a pending separator has
length at least 2 (so the trailing-separator decrements stay
non-negative). -/
def CountWordsInv (s : CountWordsState) : Prop :=
  0 ≤ s.words ∧ 0 ≤ s.lixLongWords ∧ s.lixLongWords ≤ s.words ∧
  0 ≤ s.separatorCount ∧ 0 ≤ s.wordLen ∧
  s.wordLen ≤ s.alphaNumericCharacters ∧
  0 ≤ s.alphaNumericCharacters ∧
  (s.inWord = true → 1 ≤ s.wordLen) ∧
  (s.inWord = true → 1 ≤ s.separatorCount → 2 ≤ s.wordLen)

/-- Each loop iteration of countWords preserves the scan invariant. -/
theorem countWordsStep_inv (s : CountWordsState) (c : Char)
    (h : CountWordsInv s) : CountWordsInv (countWordsStep s c) := by
  obtain ⟨h1, h2, h3, h4, h5, h6, h7, h8, h9⟩ := h
  simp only [countWordsStep, CountWordsInv]
  split_ifs <;> simp_all <;> omega

/-- The countWords loop, folded over any text from any invariant state,
ends in an invariant state. -/
theorem countWords_foldl_inv :
    ∀ (text : List Char) (s : CountWordsState), CountWordsInv s →
      CountWordsInv (text.foldl countWordsStep s)
  | [], _, h => h
  | c :: cs, s, h =>
      countWords_foldl_inv cs (countWordsStep s c) (countWordsStep_inv s c h)

/-- The post-loop flush of countWords produces outputs satisfying the
claimed bounds from any invariant state. -/
theorem countWordsFinish_inv (s : CountWordsState) (h : CountWordsInv s) :
    0 ≤ (countWordsFinish s).1 ∧ 0 ≤ (countWordsFinish s).2.1 ∧
    (countWordsFinish s).2.1 ≤ (countWordsFinish s).1 ∧
    0 ≤ (countWordsFinish s).2.2 := by
  obtain ⟨h1, h2, h3, h4, h5, h6, h7, h8, h9⟩ := h
  simp only [countWordsFinish]
  split_ifs <;> simp_all <;> omega

/-- C9: countWords totally computes on every input: the empty string
yields all-zero outputs, and for every text the word count, long-word
count and alphanumeric-character count are non-negative with
longWords less than or equal to words — the trailing-separator
decrements never drive a counter below zero. -/
theorem countWords_invariants :
    countWords [] = (0, 0, 0) ∧
    ∀ text : List Char,
      0 ≤ (countWords text).1 ∧ 0 ≤ (countWords text).2.1 ∧
      (countWords text).2.1 ≤ (countWords text).1 ∧
      0 ≤ (countWords text).2.2 := by
  constructor
  · rfl
  · intro text
    have hinit : CountWordsInv countWordsInit := by
      simp [CountWordsInv, countWordsInit]
    exact countWordsFinish_inv _ (countWords_foldl_inv text countWordsInit hinit)

/-- The block walk of onTextChanged, started from any state, adds to the
running totals exactly the sum of the refreshed cache entries: its final
word count is the starting word count plus the sum of the cached word
counts, its final paragraph count is the starting paragraph count plus
the number of blocks with non-empty trimmed text, and every visited
block ends up with an allocated cache entry. -/
theorem runBlocks_spec (oracle : List Char → List Int) :
    ∀ (bs : List Block) (s : DocStatsState),
      (runBlocks oracle s bs).1.wordCount
        = s.wordCount + ((runBlocks oracle s bs).2.map cachedWordCount).sum ∧
      (runBlocks oracle s bs).1.paragraphCount
        = s.paragraphCount
          + (((runBlocks oracle s bs).2.filter
              (fun b => (trimmed b.text).length > 0)).length : Int) ∧
      ∀ b ∈ (runBlocks oracle s bs).2, b.userData.isSome := by
  intro bs
  induction bs with
  | nil =>
      intro s
      simp [runBlocks]
  | cons b rest ih =>
      intro s
      obtain ⟨ih1, ih2, ih3⟩ := ih (updateBlockStatistics oracle s b).1
      simp only [runBlocks]
      refine ⟨?_, ?_, ?_⟩
      · rw [List.map_cons, List.sum_cons, ih1]
        simp only [updateBlockStatistics, cachedWordCount]
        ring
      · rw [List.filter_cons, ih2]
        have htext : (updateBlockStatistics oracle s b).2.text = b.text := by
          simp [updateBlockStatistics]
        by_cases hp : (trimmed b.text).length > 0
        · simp [updateBlockStatistics, htext, hp]
          omega
        · simp [updateBlockStatistics, htext, hp]
      · intro x hx
        rcases List.mem_cons.mp hx with hx1 | hx2
        · subst hx1
          simp [updateBlockStatistics]
        · exact ih3 x hx2

/-- C4: after a whole-document recompute triggered by a content change,
the published word count equals the sum, over all paragraphs of the
refreshed document in order, of each paragraph's cached word count
(every paragraph ends up with an allocated cache entry), and the
published paragraph count equals the number of paragraphs whose trimmed
text is non-empty. -/
theorem onTextChanged_sum_spec (oracle : List Char → List Int)
    (doc : Document) (s : DocStatsState) :
    (onTextChanged oracle doc s).2.2.wordCount
      = ((onTextChanged oracle doc s).1.blocks.map cachedWordCount).sum ∧
    (onTextChanged oracle doc s).2.2.paragraphCount
      = (((onTextChanged oracle doc s).1.blocks.filter
          (fun b => (trimmed b.text).length > 0)).length : Int) ∧
    ∀ b ∈ (onTextChanged oracle doc s).1.blocks, b.userData.isSome := by
  obtain ⟨h1, h2, h3⟩ := runBlocks_spec oracle doc.blocks
    { s with wordCount := 0, wordCharacterCount := 0, sentenceCount := 0,
             paragraphCount := 0, pageCount := 0, lixLongWordCount := 0,
             readTimeMinutes := 0 }
  simp only [onTextChanged, updateStatistics]
  refine ⟨?_, ?_, ?_⟩
  · simpa using h1
  · simpa using h2
  · simpa using h3

/-- The selection loop that counts selected paragraphs computes the
number of blocks in its range that have an allocated cache entry and
non-empty trimmed text. -/
theorem selectedParagraphLoop_filter (bs : List Block) :
    selectedParagraphLoop bs
      = ((bs.filter
          (fun b => b.userData.isSome ∧ (trimmed b.text).length > 0)).length : Int) := by
  induction bs with
  | nil => simp [selectedParagraphLoop]
  | cons b rest ih =>
      rw [selectedParagraphLoop, List.filter_cons, ih]
      by_cases hp : b.userData.isSome ∧ (trimmed b.text).length > 0
      · simp [hp]
        omega
      · simp [hp]

/-- C5: the selected-paragraph count published on a selection event is
the number of paragraphs in the selection's block range that both have
an allocated cache entry and non-empty trimmed text; on a document whose
single paragraph was never visited by a whole-document pass, a non-empty
selection publishes a selected-paragraph count of 0. -/
theorem onTextSelected_paragraphCount_spec (oracle : List Char → List Int)
    (doc : Document) (s : DocStatsState) (selectedText : List Char)
    (selectionStart selectionEnd : Int) :
    (onTextSelected oracle doc s selectedText selectionStart selectionEnd).2.paragraphCount
      = (((selectedBlocks doc.blocks selectionStart selectionEnd).filter
          (fun b => b.userData.isSome ∧ (trimmed b.text).length > 0)).length : Int)
    ∧ String.toList "hel" ≠ []
    ∧ (onTextSelected emptyOracle docNoCache initialStats
        (String.toList "hel") 0 2).2.paragraphCount = 0 := by
  refine ⟨?_, by decide, by decide⟩
  simp only [onTextSelected]
  exact selectedParagraphLoop_filter _

/-- C10: a selection event leaves the stored statistics state unchanged:
the selection-scoped metrics are computed into locals and only emitted,
so every accessor returns the same document-wide value afterwards. -/
theorem onTextSelected_frame (oracle : List Char → List Int)
    (doc : Document) (s : DocStatsState) (selectedText : List Char)
    (selectionStart selectionEnd : Int) :
    (onTextSelected oracle doc s selectedText selectionStart selectionEnd).1 = s
    ∧ DocumentStatistics.wordCount
        (onTextSelected oracle doc s selectedText selectionStart selectionEnd).1
      = DocumentStatistics.wordCount s
    ∧ DocumentStatistics.sentenceCount
        (onTextSelected oracle doc s selectedText selectionStart selectionEnd).1
      = DocumentStatistics.sentenceCount s
    ∧ DocumentStatistics.paragraphCount
        (onTextSelected oracle doc s selectedText selectionStart selectionEnd).1
      = DocumentStatistics.paragraphCount s
    ∧ DocumentStatistics.pageCount
        (onTextSelected oracle doc s selectedText selectionStart selectionEnd).1
      = DocumentStatistics.pageCount s
    ∧ DocumentStatistics.readingTime
        (onTextSelected oracle doc s selectedText selectionStart selectionEnd).1
      = DocumentStatistics.readingTime s :=
  ⟨rfl, rfl, rfl, rfl, rfl, rfl⟩

/-- C2 counterexample: the batch published on a selection event carries
the selected text's length, not the document's total character length
minus one — selecting the five characters hello in the eleven-character
document hello world publishes character count 5, while the document
length minus one is 11. -/
theorem selection_characterCount_cex :
    (onTextSelected emptyOracle docHello initialStats
      (String.toList "hello") 0 4).2.characterCount
      ≠ docCharacterCount docHello - 1 := by decide

/-- C2 (amended): every whole-document batch (updateStatistics) publishes
the document's total character length minus one as the character count,
independent of the word/sentence pipeline; the batch published on a
selection event instead carries the selected text's length. -/
theorem characterCount_published (doc : Document) (s : DocStatsState)
    (oracle : List Char → List Int) (doc2 : Document) (s2 : DocStatsState)
    (selectedText : List Char) (selectionStart selectionEnd : Int) :
    (updateStatistics doc s).2.characterCount = docCharacterCount doc - 1
    ∧ (onTextSelected oracle doc2 s2 selectedText selectionStart selectionEnd).2.characterCount
      = (selectedText.length : Int) :=
  ⟨rfl, rfl⟩

end Ghostwriter
